import Mathlib

/-!
Verification of the pygedm NE2001 wrapper (ne2001_wrapper.py).

Shallow embedding conventions:
- Python and numpy floating-point scalars are modelled as real numbers.
  The float32 coercion performed by np.array(x, dtype=float32) is modelled
  as the identity on the reals.
- The two opaque f2py FORTRAN capabilities (dmdsm.dmdsm and
  density.density_2001) are parameters of the wrapper functions: a call
  may either succeed with a result record or raise, modelled with Except.
- The f2py dmdsm routine receives the dmpsr and dist slots as in/out
  rank-0 arrays and may mutate them; the result record therefore carries
  the post-call values of both slots, which is what the wrapper reads via
  float(dist) and float(dm) after the call.
- Each wrapper function also returns the list of dmdsm invocations it
  performed (the call trace), recording the exact arguments, so that
  claims of the form "the external routine is never invoked" and
  "the direction flag is +1" are expressible.
- astropy unit tagging is presentational; quantities are bare reals and
  the kpc-to-pc conversion performed by .to(pc) is the explicit factor
  1000 that it denotes.
-/

noncomputable section

/-- Default absolute tolerance of np.isclose (atol = 1e-8). -/
def np_atol : ℝ := 1 / 10 ^ 8

/-- Default relative tolerance of np.isclose (rtol = 1e-5). -/
def np_rtol : ℝ := 1 / 10 ^ 5

/-- np.isclose(a, b) with default tolerances for finite scalars:
abs (a - b) is at most atol + rtol * abs b. -/
def npIsClose (a b : ℝ) : Prop := |a - b| ≤ np_atol + np_rtol * |b|

instance npIsClose.instDecidable (a b : ℝ) : Decidable (npIsClose a b) :=
  inferInstanceAs (Decidable (|a - b| ≤ np_atol + np_rtol * |b|))

/-- np.deg2rad: degrees to radians. -/
def degToRad (x : ℝ) : ℝ := x * Real.pi / 180

/-- TAUISS from ne2001_wrapper.py, line 159:
tauiss = 1. * (sm / 292.)**1.2 * d * nu**(-4.4).
Exponentiation of floats is modelled by the real power rpow. -/
def TAUISS (d sm nu : ℝ) : ℝ := 1 * (sm / 292) ^ (1.2 : ℝ) * d * nu ^ (-4.4 : ℝ)

/-- Errors a Python call can raise: a TypeError (for example slicing an
int), or a failure inside the foreign FORTRAN routine. -/
inductive PyErr where
  | typeError : PyErr
  | foreignErr : PyErr
deriving DecidableEq

/-- Outputs of one dmdsm call, in the order of the f2py docstring
(limit, sm, smtau, smtheta, smiso), together with the post-call values of
the two in/out slots dmpsr and dist. The limit flag is a one-character
string for the real routine but an int for the documentation mock, so its
type is a parameter; the wrapper never inspects it. -/
structure DmdsmOut (L : Type) where
  limit : L
  sm : ℝ
  smtau : ℝ
  smtheta : ℝ
  smiso : ℝ
  dmpsr : ℝ
  dist : ℝ

/-- The arguments of one invocation of dmdsm.dmdsm(l, b, ndir, dmpsr, dist). -/
structure DmdsmCall where
  l : ℝ
  b : ℝ
  ndir : Int
  dmpsr : ℝ
  dist : ℝ

/-- The opaque dmdsm solve capability. -/
def DmdsmFn (L : Type) : Type := ℝ → ℝ → Int → ℝ → ℝ → Except PyErr (DmdsmOut L)

/-- The opaque density capability. It returns either a bare Python scalar
(as the documentation mock does) or a tuple of numeric components (as the
real f2py routine does, 23 of them per the docstring). -/
def DensityFn : Type := ℝ → ℝ → ℝ → Except PyErr (ℝ ⊕ List ℝ)

/-- The 23 names of the return components of density.density_2001, as
declared by the f2py docstring in ne2001_wrapper.py lines 51 and 52. -/
def density_2001_return_names : List String :=
  ["ne1", "ne2", "nea", "negc", "nelism", "necn", "nevn",
   "f1", "f2", "fa", "fgc", "flism", "fcn", "fvn",
   "whicharm", "wlism", "wldr", "wlhb", "wlsb", "wloopi",
   "hitclump", "hitvoid", "wvoid"]

/-- dm_to_dist from ne2001_wrapper.py lines 164 to 186 (the body inside
the working-directory guard). Returns the value of the Python call paired
with the trace of dmdsm invocations. The successful value is the pair
(distance in pc, scattering time in s): the solved distance float(dist)
in kpc times 1000, and TAUISS of the solved distance and smtau at 1 GHz. -/
def dm_to_dist {L : Type} (dmdsm : DmdsmFn L) (l b dm : ℝ) :
    Except PyErr (ℝ × ℝ) × List DmdsmCall :=
  if npIsClose dm 0 then
    (Except.ok (0, 0), [])
  else
    match dmdsm (degToRad l) (degToRad b) 1 dm 0 with
    | Except.error e => (Except.error e, [⟨degToRad l, degToRad b, 1, dm, 0⟩])
    | Except.ok o =>
        (Except.ok (1000 * o.dist, TAUISS o.dist o.smtau 1),
         [⟨degToRad l, degToRad b, 1, dm, 0⟩])

/-- dist_to_dm from ne2001_wrapper.py lines 190 to 213 (the body inside
the working-directory guard). The successful value is the pair
(dispersion measure in pc per cm cubed, scattering time in s). -/
def dist_to_dm {L : Type} (dmdsm : DmdsmFn L) (l b dist : ℝ) :
    Except PyErr (ℝ × ℝ) × List DmdsmCall :=
  if npIsClose dist 0 then
    (Except.ok (0, 0), [])
  else
    match dmdsm (degToRad l) (degToRad b) (-1) 0 dist with
    | Except.error e => (Except.error e, [⟨degToRad l, degToRad b, -1, 0, dist⟩])
    | Except.ok o =>
        (Except.ok (o.dmpsr, TAUISS o.dist o.smtau 1),
         [⟨degToRad l, degToRad b, -1, 0, dist⟩])

/-- calculate_electron_density_xyz from ne2001_wrapper.py lines 217 to 232
(the body inside the working-directory guard): ne_out[:7] sums the first
seven components. Slicing a bare scalar raises a TypeError in Python. -/
def calculate_electron_density_xyz (density : DensityFn) (x y z : ℝ) :
    Except PyErr ℝ :=
  match density x y z with
  | Except.error e => Except.error e
  | Except.ok (Sum.inl _) => Except.error PyErr.typeError
  | Except.ok (Sum.inr xs) => Except.ok ((xs.take 7).sum)

/-- The documentation-environment stand-in (class Mock, lines 98 to 104):
dmdsm returns the five zeros (0, 0, 0, 0, 0) and does not touch the
in/out slots, so the post-call slot values equal the inputs. -/
def Mock_dmdsm : DmdsmFn ℝ := fun _ _ _ dmpsr dist =>
  Except.ok ⟨0, 0, 0, 0, 0, dmpsr, dist⟩

/-- The documentation-environment stand-in for the density capability:
density_2001 returns the bare scalar 0. -/
def Mock_density : DensityFn := fun _ _ _ => Except.ok (Sum.inl 0)

/-- A concrete solve stand-in used to instantiate theorems with
hypotheses: it fills the distance slot with 6 and reports smtau = 3. -/
def testDmdsm : DmdsmFn ℝ := fun _ _ _ dmpsr _ =>
  Except.ok ⟨9, 2, 3, 4, 5, dmpsr, 6⟩

/-- The 23-component stand-in vector of the spec example: seven physical
densities 1 to 7 followed by sixteen diagnostic values 99. -/
def vec23 : List ℝ :=
  [1, 2, 3, 4, 5, 6, 7, 99, 99, 99, 99, 99, 99, 99, 99, 99,
   99, 99, 99, 99, 99, 99, 99]

/-- A density stand-in returning the 23-component vector vec23. -/
def density23 : DensityFn := fun _ _ _ => Except.ok (Sum.inr vec23)

/-- The process state visible to the wrapper: the current working
directory, plus an abstract remainder of process state (fs) on which the
wrapped body may have arbitrary effects that are not rolled back. -/
structure PState where
  cwd : String
  fs : ℕ

/-- run_from_pkgdir from ne2001_wrapper.py lines 108 to 126: save the
current working directory, chdir into the package data directory, run the
body, and in the finally block chdir back, on the normal return and on
every raising path alike. The package directory is a parameter since
DATA_PATH is computed from the installed file location. -/
def run_from_pkgdir {A : Type} (dataPath : String)
    (f : PState → Except PyErr A × PState) (s : PState) :
    Except PyErr A × PState :=
  let r := f { s with cwd := dataPath }
  (r.1, { r.2 with cwd := s.cwd })

/-- dm_to_dist as actually exported: the run_from_pkgdir guard applied to
the dm_to_dist body. -/
def dm_to_dist_guarded {L : Type} (dataPath : String) (dmdsm : DmdsmFn L)
    (l b dm : ℝ) : PState → Except PyErr (ℝ × ℝ) × PState :=
  run_from_pkgdir dataPath (fun s => ((dm_to_dist dmdsm l b dm).1, s))

/-- dist_to_dm as actually exported: the run_from_pkgdir guard applied to
the dist_to_dm body. -/
def dist_to_dm_guarded {L : Type} (dataPath : String) (dmdsm : DmdsmFn L)
    (l b dist : ℝ) : PState → Except PyErr (ℝ × ℝ) × PState :=
  run_from_pkgdir dataPath (fun s => ((dist_to_dm dmdsm l b dist).1, s))

/-- calculate_electron_density_xyz as actually exported: the
run_from_pkgdir guard applied to the density body. -/
def calculate_electron_density_xyz_guarded (dataPath : String)
    (density : DensityFn) (x y z : ℝ) : PState → Except PyErr ℝ × PState :=
  run_from_pkgdir dataPath (fun s => (calculate_electron_density_xyz density x y z, s))

lemma npIsClose_zero_zero : npIsClose 0 0 := by
  simp [npIsClose, np_atol, np_rtol]

lemma dm_to_dist_isclose {L : Type} (f : DmdsmFn L) (l b v : ℝ)
    (h : npIsClose v 0) : dm_to_dist f l b v = (Except.ok (0, 0), []) := by
  simp [dm_to_dist, h]

lemma dist_to_dm_isclose {L : Type} (f : DmdsmFn L) (l b v : ℝ)
    (h : npIsClose v 0) : dist_to_dm f l b v = (Except.ok (0, 0), []) := by
  simp [dist_to_dm, h]

lemma dm_to_dist_ok {L : Type} (f : DmdsmFn L) (l b v : ℝ) (o : DmdsmOut L)
    (h : ¬ npIsClose v 0) (hf : f (degToRad l) (degToRad b) 1 v 0 = Except.ok o) :
    dm_to_dist f l b v =
      (Except.ok (1000 * o.dist, TAUISS o.dist o.smtau 1),
       [⟨degToRad l, degToRad b, 1, v, 0⟩]) := by
  simp [dm_to_dist, h, hf]

lemma dist_to_dm_ok {L : Type} (f : DmdsmFn L) (l b v : ℝ) (o : DmdsmOut L)
    (h : ¬ npIsClose v 0) (hf : f (degToRad l) (degToRad b) (-1) 0 v = Except.ok o) :
    dist_to_dm f l b v =
      (Except.ok (o.dmpsr, TAUISS o.dist o.smtau 1),
       [⟨degToRad l, degToRad b, -1, 0, v⟩]) := by
  simp [dist_to_dm, h, hf]

lemma dm_to_dist_calls {L : Type} (f : DmdsmFn L) (l b v : ℝ)
    (h : ¬ npIsClose v 0) :
    (dm_to_dist f l b v).2 = [⟨degToRad l, degToRad b, 1, v, 0⟩] := by
  unfold dm_to_dist
  rw [if_neg h]
  cases hf : f (degToRad l) (degToRad b) 1 v 0 <;> simp

lemma dist_to_dm_calls {L : Type} (f : DmdsmFn L) (l b v : ℝ)
    (h : ¬ npIsClose v 0) :
    (dist_to_dm f l b v).2 = [⟨degToRad l, degToRad b, -1, 0, v⟩] := by
  unfold dist_to_dm
  rw [if_neg h]
  cases hf : f (degToRad l) (degToRad b) (-1) 0 v <;> simp

lemma not_npIsClose_one_zero : ¬ npIsClose 1 0 := by
  simp [npIsClose, np_atol, np_rtol]
  norm_num

/-- C1: for every longitude and latitude and every solve capability,
dm_to_dist at dm = 0 returns the pair (0 pc, 0 s) with an empty dmdsm
call trace, and dist_to_dm at dist = 0 returns (0 pc per cm cubed, 0 s)
with an empty dmdsm call trace: the external routine is never invoked on
the degenerate zero inputs. -/
theorem C1_zero_input_shortcircuit (L : Type) (f g : DmdsmFn L) (l b : ℝ) :
    dm_to_dist f l b 0 = (Except.ok (0, 0), []) ∧
    dist_to_dm g l b 0 = (Except.ok (0, 0), []) :=
  ⟨dm_to_dist_isclose f l b 0 npIsClose_zero_zero,
   dist_to_dm_isclose g l b 0 npIsClose_zero_zero⟩

/-- C2: the working-directory guard. First, for every body and every
start state, the working directory after run_from_pkgdir equals the
working directory before it, on every exit path (the body may return ok
or error in its first component, and may itself have changed the
directory and the rest of the process state). Second, the body runs with
the working directory set to the package data directory: a body that
returns the directory it observes returns dataPath. Third, the three
exported guarded operations each restore the working directory. -/
theorem C2_workdir_guard :
    (∀ (A : Type) (dataPath : String)
       (g : PState → Except PyErr A × PState) (s : PState),
       ((run_from_pkgdir dataPath g s).2).cwd = s.cwd) ∧
    (∀ (dataPath : String) (s : PState),
       (run_from_pkgdir dataPath (fun st => (Except.ok st.cwd, st)) s).1 =
         Except.ok dataPath) ∧
    (∀ (L : Type) (dataPath : String) (f : DmdsmFn L) (l b v : ℝ) (s : PState),
       ((dm_to_dist_guarded dataPath f l b v s).2).cwd = s.cwd) ∧
    (∀ (L : Type) (dataPath : String) (f : DmdsmFn L) (l b v : ℝ) (s : PState),
       ((dist_to_dm_guarded dataPath f l b v s).2).cwd = s.cwd) ∧
    (∀ (dataPath : String) (d : DensityFn) (x y z : ℝ) (s : PState),
       ((calculate_electron_density_xyz_guarded dataPath d x y z s).2).cwd = s.cwd) :=
  ⟨fun _ _ _ _ => rfl, fun _ _ => rfl, fun _ _ _ _ _ _ _ => rfl,
   fun _ _ _ _ _ _ _ => rfl, fun _ _ _ _ _ _ => rfl⟩

/-- C3 counterexample: the density capability does not return a
21-component vector. The f2py docstring in the source declares 23 return
components, so the claim as stated (a 21-component vector with 14
discarded components) is false: the vector has 23 components and 16 are
discarded. -/
theorem C3_arity_counterexample :
    density_2001_return_names.length = 23 ∧
    density_2001_return_names.length ≠ 21 := by
  constructor <;> decide

/-- C3 (amended): for every density capability, whenever the capability
returns a component vector xs, calculate_electron_density_xyz returns
exactly the sum of the first 7 components of xs; every component past
the seventh has no effect on the result. -/
theorem C3_sum_first_seven (d : DensityFn) (x y z : ℝ) (xs : List ℝ)
    (h : d x y z = Except.ok (Sum.inr xs)) :
    calculate_electron_density_xyz d x y z = Except.ok ((xs.take 7).sum) := by
  simp [calculate_electron_density_xyz, h]

/-- Witness for C3: the stand-in returning the 23-component vector
1 to 7 followed by sixteen 99s yields the sum 28. -/
theorem C3_sum_first_seven_witness :
    calculate_electron_density_xyz density23 0 0 0 =
      Except.ok ((vec23.take 7).sum) ∧ (vec23.take 7).sum = (28 : ℝ) :=
  ⟨C3_sum_first_seven density23 0 0 0 vec23 rfl, by norm_num [vec23]⟩

/-- C4: TAUISS is exactly the closed-form relation
(sm / 292) ^ 1.2 * d * nu ^ (-4.4). -/
theorem C4_tauiss_formula (d sm nu : ℝ) :
    TAUISS d sm nu = (sm / 292) ^ (1.2 : ℝ) * d * nu ^ (-4.4 : ℝ) := by
  unfold TAUISS
  ring

/-- C5: on a non-degenerate input (dm not within the closeness tolerance
of zero), when the solve capability returns the record o, dm_to_dist
returns the solved distance slot value (kpc) times 1000 (the conversion
to pc) and the scattering time TAUISS of that solved distance and the
smtau output (the third solve result component) at the reference
frequency nu = 1 GHz. -/
theorem C5_nondegenerate_dm_to_dist {L : Type} (f : DmdsmFn L)
    (l b v : ℝ) (o : DmdsmOut L) (h : ¬ npIsClose v 0)
    (hf : f (degToRad l) (degToRad b) 1 v 0 = Except.ok o) :
    (dm_to_dist f l b v).1 =
      Except.ok (1000 * o.dist, TAUISS o.dist o.smtau 1) := by
  rw [dm_to_dist_ok f l b v o h hf]

/-- Witness for C5: the concrete stand-in fills the distance slot with 6
and reports smtau = 3, so dm_to_dist returns (1000 * 6, TAUISS 6 3 1). -/
theorem C5_nondegenerate_dm_to_dist_witness :
    (dm_to_dist testDmdsm 0 0 1).1 =
      Except.ok (1000 * (6 : ℝ), TAUISS 6 3 1) :=
  C5_nondegenerate_dm_to_dist testDmdsm 0 0 1 ⟨9, 2, 3, 4, 5, 1, 6⟩
    not_npIsClose_one_zero rfl

/-- C6: on a non-degenerate input, dm_to_dist invokes the solver exactly
once with direction flag ndir = 1, longitude and latitude converted to
radians, the known dm in the dmpsr slot and a zero-initialized dist
slot; dist_to_dm invokes it exactly once with ndir = -1, radians, a
zero-initialized dmpsr slot and the known dist in the dist slot. -/
theorem C6_direction_flags {L : Type} (f g : DmdsmFn L) (l b v : ℝ)
    (h : ¬ npIsClose v 0) :
    (dm_to_dist f l b v).2 = [⟨degToRad l, degToRad b, 1, v, 0⟩] ∧
    (dist_to_dm g l b v).2 = [⟨degToRad l, degToRad b, -1, 0, v⟩] :=
  ⟨dm_to_dist_calls f l b v h, dist_to_dm_calls g l b v h⟩

/-- Witness for C6 at the concrete input l = 0, b = 0, v = 1. -/
theorem C6_direction_flags_witness :
    (dm_to_dist testDmdsm 0 0 1).2 =
      [⟨degToRad 0, degToRad 0, 1, 1, 0⟩] ∧
    (dist_to_dm testDmdsm 0 0 1).2 =
      [⟨degToRad 0, degToRad 0, -1, 0, 1⟩] :=
  C6_direction_flags testDmdsm testDmdsm 0 0 1 not_npIsClose_one_zero

/-- C7: TAUISS is deterministic (equal inputs give equal outputs), and
for all positive d and nu, TAUISS d 292 nu = d * nu ^ (-4.4): the
sm / 292 factor reduces to 1. -/
theorem C7_tauiss_at_292 :
    (∀ d1 sm1 nu1 d2 sm2 nu2 : ℝ, d1 = d2 → sm1 = sm2 → nu1 = nu2 →
       TAUISS d1 sm1 nu1 = TAUISS d2 sm2 nu2) ∧
    (∀ d nu : ℝ, 0 < d → 0 < nu →
       TAUISS d 292 nu = d * nu ^ (-4.4 : ℝ)) := by
  constructor
  · intro d1 sm1 nu1 d2 sm2 nu2 h1 h2 h3
    rw [h1, h2, h3]
  · intro d nu _ _
    have h292 : ((292 : ℝ) / 292) = 1 := by norm_num
    rw [TAUISS, h292, Real.one_rpow]
    ring

/-- Witness for C7 at d = 1, nu = 1. -/
theorem C7_tauiss_at_292_witness :
    TAUISS 1 292 1 = 1 * (1 : ℝ) ^ (-4.4 : ℝ) :=
  C7_tauiss_at_292.2 1 1 one_pos one_pos

/-- C9 counterexample: with the documentation stand-in in place,
calculate_electron_density_xyz does not return 0; it raises a TypeError,
because the stand-in returns the bare scalar 0 and slicing a scalar with
[:7] is a type error. -/
theorem C9_mock_density_counterexample :
    calculate_electron_density_xyz Mock_density 1 2 3 =
      Except.error PyErr.typeError ∧
    (Except.error PyErr.typeError : Except PyErr ℝ) ≠ Except.ok 0 := by
  constructor
  · rfl
  · simp

/-- C9 (amended): with the documentation stand-in in place, dm_to_dist
and dist_to_dm return zero-valued results ((0 pc, 0 s) and
(0 pc per cm cubed, 0 s)) on every input, while
calculate_electron_density_xyz raises a TypeError on every input because
the scalar 0 returned by the stand-in density capability cannot be
sliced into components. -/
theorem C9_mock_zero_outputs :
    (∀ l b v : ℝ, (dm_to_dist Mock_dmdsm l b v).1 = Except.ok (0, 0)) ∧
    (∀ l b v : ℝ, (dist_to_dm Mock_dmdsm l b v).1 = Except.ok (0, 0)) ∧
    (∀ x y z : ℝ, calculate_electron_density_xyz Mock_density x y z =
       Except.error PyErr.typeError) := by
  refine ⟨fun l b v => ?_, fun l b v => ?_, fun x y z => rfl⟩
  · by_cases h : npIsClose v 0
    · rw [dm_to_dist_isclose Mock_dmdsm l b v h]
    · rw [dm_to_dist_ok Mock_dmdsm l b v ⟨0, 0, 0, 0, 0, v, 0⟩ h rfl]
      simp [TAUISS]
  · by_cases h : npIsClose v 0
    · rw [dist_to_dm_isclose Mock_dmdsm l b v h]
    · rw [dist_to_dm_ok Mock_dmdsm l b v ⟨0, 0, 0, 0, 0, 0, v⟩ h rfl]
      have h0 : (0 : ℝ) ^ (1.2 : ℝ) = 0 := Real.zero_rpow (by norm_num)
      simp [TAUISS, h0]

/-- C10: the degenerate-input short-circuit is tolerance-based: every
input within the default np.isclose tolerance of zero (absolute value at
most atol = 1e-8, since the relative term vanishes against 0), not only
the exact value 0, makes dm_to_dist and dist_to_dm return the fixed
(0, 0 s) result with an empty dmdsm call trace. -/
theorem C10_tolerance_shortcircuit {L : Type} (f g : DmdsmFn L)
    (l b v : ℝ) (h : npIsClose v 0) :
    dm_to_dist f l b v = (Except.ok (0, 0), []) ∧
    dist_to_dm g l b v = (Except.ok (0, 0), []) :=
  ⟨dm_to_dist_isclose f l b v h, dist_to_dm_isclose g l b v h⟩

/-- Witness for C10 at the nonzero input v = 1 / 10 ^ 9, which is within
the tolerance of zero. -/
theorem C10_tolerance_shortcircuit_witness :
    ((1 : ℝ) / 10 ^ 9 ≠ 0) ∧
    dm_to_dist testDmdsm 3 4 ((1 : ℝ) / 10 ^ 9) = (Except.ok (0, 0), []) ∧
    dist_to_dm testDmdsm 3 4 ((1 : ℝ) / 10 ^ 9) = (Except.ok (0, 0), []) :=
  ⟨by norm_num,
   C10_tolerance_shortcircuit testDmdsm testDmdsm 3 4 ((1 : ℝ) / 10 ^ 9)
     (by simp [npIsClose, np_atol, np_rtol, abs_le]; norm_num)⟩

end
